import Mathlib

/-!
Verification development for the AI4Chat assistant backend
(`src/backend/server.js`).  The definitions below are a shallow embedding
of the routing / response-synthesis pipeline: JavaScript strings become
Lean `String`s, JS arrays become `List`s, absent (`undefined`) string
fields become `""`, absent objects become `Option`, and the two
`searchKnowledgeBase` subprocess invocations performed by the `/api/chat`
handler are modelled by two `SearchOutcome` parameters.  Timestamps
(`new Date().toISOString()`) are modelled by `Nat` clock values supplied
per push, and the `Math.random()` pick inside `generateMockTrackingInfo`
by an explicit `TrackingInfo` parameter.
-/

namespace AIChat

/-- Model of JavaScript `String.prototype.toLowerCase` (ASCII, which covers
every keyword the server compares against). -/
def jsToLower (s : String) : String := String.mk (s.data.map Char.toLower)

/-- Model of JavaScript `s.slice(0, n)` / `s.substring(0, n)`. -/
def jsTake (s : String) (n : Nat) : String := String.mk (s.data.take n)

/-- Leading and trailing whitespace removal on a char list. -/
def trimList (l : List Char) : List Char :=
  ((l.dropWhile Char.isWhitespace).reverse.dropWhile Char.isWhitespace).reverse

/-- Model of JavaScript `s.trim()`. -/
def jsTrim (s : String) : String := String.mk (trimList s.data)

/-- Replace the first occurrence of `pat` (JavaScript
`String.prototype.replace` with a string pattern replaces only the first). -/
def replaceFirstList (pat rep : List Char) : List Char → List Char
  | [] => if List.isPrefixOf pat ([] : List Char) then rep else []
  | c :: t =>
    if List.isPrefixOf pat (c :: t) then rep ++ (c :: t).drop pat.length
    else c :: replaceFirstList pat rep t

/-- Model of JavaScript `s.replace(pat, rep)`. -/
def jsReplace (s pat rep : String) : String :=
  String.mk (replaceFirstList pat.data rep.data s.data)

/-- Does `sub` occur as a contiguous run inside `l`?  Model of JavaScript
`String.prototype.includes` restricted to char lists. -/
def containsSubList (sub : List Char) : List Char → Bool
  | [] => sub.isEmpty
  | c :: t => List.isPrefixOf sub (c :: t) || containsSubList sub t

/-- Model of JavaScript `s.includes(sub)`. -/
def containsSub (s sub : String) : Bool := containsSubList sub.data s.data

/-- Does string `s` end with `tail`?  Used to state the trailer-line facts. -/
def endsWithStr (s tail : String) : Bool := List.isSuffixOf tail.data s.data

/-- Does the lowercased message contain any of the keywords?  Shared shape of
all keyword tests in `server.js`. -/
def anyKeyword (lower : String) (kws : List String) : Bool :=
  kws.any (fun k => containsSub lower k)

/-- Model of a product variant as read by the server
(absent string fields become `""`; absent `available` becomes `none`,
matching the `typeof v.available === 'boolean'` test in the source). -/
structure Variant where
  color : String := ""
  size : String := ""
  price : String := ""
  compare_at_price : String := ""
  available : Option Bool := none
  weight : String := ""
  weight_unit : String := ""
deriving Repr, DecidableEq

/-- Model of the `product_info` record of a retrieved document. -/
structure ProductInfo where
  variants : List Variant := []
  images : List String := []
  warranty : String := ""
  shipping_info : String := ""
  materials : String := ""
  care : String := ""
  best_price : String := ""
  price_range : String := ""
deriving Repr, DecidableEq

/-- Model of a Document returned by the knowledge retriever. -/
structure Doc where
  title : String := ""
  url : String := ""
  text : String := ""
  score : Int := 0
  product_info : Option ProductInfo := none
deriving Repr, DecidableEq

/-- The `product_info || {}` default used throughout the source. -/
def piOf (d : Doc) : ProductInfo := d.product_info.getD {}

/-- The redacted citation exposed to the caller: exactly the three fields
`title`, `url`, `score` — the `Source` type has no other field, so `text`
and `product_info` cannot be exposed through it. -/
structure Source where
  title : String
  url : String
  score : Int
deriving Repr, DecidableEq

/-- The projection `r => ({title: r.title, url: r.url, score: r.score})`
applied to every document cited in a response. -/
def docToSource (d : Doc) : Source :=
  { title := d.title, url := d.url, score := d.score }

/-- `isPersonalizedQuery` from `server.js` (lines 41-51). -/
def isPersonalizedQuery (message : String) : Bool :=
  anyKeyword (jsToLower message)
    ["my order", "my refund", "my account", "my purchase",
     "my delivery", "my package", "my return", "my payment",
     "my shipping", "i ordered", "i bought", "i purchased",
     "i paid", "i returned"]

/-- `handlePersonalizedQuery` from `server.js` (lines 53-74). -/
def handlePersonalizedQuery (message : String) : String :=
  let lower := jsToLower message
  if containsSub lower "order" || containsSub lower "delivery" || containsSub lower "package" then
    "To check your order status, please provide your order number. If you don\x27t have it, you can find it in your order confirmation email."
  else if containsSub lower "refund" then
    "To check your refund status, please provide your order number and the date of your refund request. You can also check your refund status in your account dashboard."
  else if containsSub lower "return" then
    "For return status, please provide your return authorization number. You can find this in your return confirmation email."
  else if containsSub lower "payment" then
    "For payment-related queries, please check your order confirmation email or your account dashboard. For security reasons, I can\x27t access specific payment details here."
  else
    "I notice you\x27re asking about your personal information. To help you better, please provide relevant details like your order number or reference number. Alternatively, you can check your account dashboard for this information."

/-- `isOrderTrackingQuery` from `server.js` (lines 253-261). -/
def isOrderTrackingQuery (message : String) : Bool :=
  anyKeyword (jsToLower message)
    ["track", "order", "tracking", "status", "where is my order",
     "shipment", "delivery", "shipped", "delivered"]

/-- `isProductQuery` from `server.js` (lines 289-297). -/
def isProductQuery (message : String) : Bool :=
  anyKeyword (jsToLower message)
    ["price", "cost", "material", "size", "color", "product",
     "buy", "purchase", "available", "stock", "features"]

/-- The mock status/details pair produced by `generateMockTrackingInfo`;
the random pick is an explicit parameter of the model. -/
structure TrackingInfo where
  status : String
  details : String
deriving Repr, DecidableEq

/-- Word-boundary (`\b`) test of JavaScript regexes: `\w` is
`[A-Za-z0-9_]`. -/
def isWordChar (c : Char) : Bool := c.isAlphanum || c = '_'

/-- Does the literal word `w` match inside `s` at position `i` with `\b` on
both sides (all alternatives the server uses are purely alphabetic)? -/
def wordMatchAt (s : List Char) (i : Nat) (w : List Char) : Bool :=
  List.isPrefixOf w (s.drop i) &&
  (if i = 0 then true else !isWordChar (s.getD (i - 1) ' ')) &&
  !isWordChar (s.getD (i + w.length) ' ')

/-- Leftmost match of `/\b(w1|w2|...)\b/` against `lower`: positions are
scanned left to right, and at each position the alternatives are tried in
order — exactly the JavaScript regex backtracking behaviour. -/
def firstWordMatch (lower : String) (ws : List String) : Option String :=
  let s := lower.data
  (List.range (s.length + 1)).findSome?
    (fun i => ws.find? (fun w => wordMatchAt s i w.data))

/-- The color capture `lower.match(/\b(blue|green|...)\b/)` of
`formatProductAnswer`. -/
def queryColor (lower : String) : Option String :=
  firstWordMatch lower ["blue", "green", "purple", "red", "black", "white", "gold", "silver"]

/-- Size normalization `sizeRaw.replace('small','s').replace('medium','m').replace('large','l')`. -/
def normSize (sizeRaw : String) : String :=
  jsReplace (jsReplace (jsReplace sizeRaw "small" "s") "medium" "m") "large" "l"

/-- The size capture and normalization of `formatProductAnswer`. -/
def querySize (lower : String) : Option String :=
  (firstWordMatch lower ["xs", "s", "m", "l", "xl", "xxl", "small", "medium", "large"]).map normSize

/-- Per-variant attribute test shared by `filterByAttributes` and the
`vMatch` selection: `(!color || v.color.toLowerCase() === color) && (!size || ...)`. -/
def variantMatches (color size : Option String) (v : Variant) : Bool :=
  (color.all (fun c => jsToLower v.color = c)) &&
  (size.all (fun s => jsToLower v.size = s))

/-- The per-document predicate of the `filterByAttributes` loop body. -/
def docMatchesAttr (color size : Option String) (h : Doc) : Bool :=
  let hasVariant := (piOf h).variants.any (variantMatches color size)
  let text := jsToLower h.text
  let okText := (color.all (fun c => containsSub text c)) &&
    (size.all (fun s => containsSub text s))
  hasVariant || okText

/-- The accumulation loop of `filterByAttributes` building `pick`. -/
def filterPick (color size : Option String) : List Doc → List Doc
  | [] => []
  | h :: t =>
    if docMatchesAttr color size h then h :: filterPick color size t
    else filterPick color size t

/-- `filterByAttributes` from `server.js` (lines 299-314). -/
def filterByAttributes (hits : List Doc) (color size : Option String) : List Doc :=
  if color.isNone && size.isNone then hits
  else
    let pick := filterPick color size hits
    if pick.isEmpty then hits else pick

/-- The URL-deduplication loop of `formatProductAnswer` (lines 334-342):
documents with a falsy `url` are dropped, first occurrence of each URL wins. -/
def dedupeByUrlAux : List Doc → List String → List Doc
  | [], _ => []
  | h :: t, seen =>
    if h.url ≠ "" && !seen.contains h.url then h :: dedupeByUrlAux t (h.url :: seen)
    else dedupeByUrlAux t seen

/-- Entry point of the URL-deduplication (empty `seen` set). -/
def dedupeByUrl (hits : List Doc) : List Doc := dedupeByUrlAux hits []

/-- JavaScript `[...new Set(l)]`: first occurrence wins, order preserved. -/
def firstDedupAux : List String → List String → List String
  | [], _ => []
  | a :: t, seen =>
    if seen.contains a then firstDedupAux t seen
    else a :: firstDedupAux t (a :: seen)

/-- First-occurrence deduplication of a string list. -/
def firstDedup (l : List String) : List String := firstDedupAux l []

/-- JavaScript `Array.prototype.join(sep)`. -/
def joinWith (sep : String) : List String → String
  | [] => ""
  | [a] => a
  | a :: b :: t => a ++ sep ++ joinWith sep (b :: t)

/-- Truthiness of a variant's `available` field as the server uses it
(`vMatch.available ? ... : ...`). -/
def availTruthy (v : Variant) : Bool := v.available.getD false

/-- The variant the loop body of `formatProductAnswer` works with:
`variants.find(...) || variants[0]`. -/
def vMatchOf (color size : Option String) (variants : List Variant) : Option Variant :=
  (variants.find? (variantMatches color size)).orElse (fun _ => variants.head?)

/-- The `Price:` / `Price from:` block of the loop body (source lines 374-389). -/
def priceLinesOf (priceI : Bool) (pi : ProductInfo) (vMatch : Option Variant) : List String :=
  if priceI && (vMatch.isSome || pi.best_price ≠ "") then
    if vMatch.isSome && (vMatch.getD {}).price ≠ "" then
      let v := vMatch.getD {}
      let was := jsTrim v.compare_at_price
      let avail := if availTruthy v then "(in stock)" else "(out of stock)"
      if was ≠ "" then ["Price: " ++ v.price ++ " (was " ++ was ++ ") " ++ avail]
      else ["Price: " ++ v.price ++ " " ++ avail]
    else if pi.best_price ≠ "" then
      let range := jsTrim pi.price_range
      ["Price from: " ++ (if range ≠ "" then range else pi.best_price)]
    else []
  else []

/-- The `Availability:` block of the loop body (source lines 391-398). -/
def availLinesOf (availI : Bool) (vMatch : Option Variant) : List String :=
  if availI && vMatch.isSome then
    let v := vMatch.getD {}
    ["Availability: " ++ (if availTruthy v then "in stock" else "out of stock")] ++
    (if v.price ≠ "" then
      let was := jsTrim v.compare_at_price
      ["Price: " ++ v.price ++ (if was ≠ "" then " (was " ++ was ++ ")" else "")]
    else [])
  else []

/-- The `Materials:` / `Care:` block of the loop body (source lines 400-405). -/
def matLinesOf (matI : Bool) (materials care snippet : String) : List String :=
  if matI then
    (if materials ≠ "" then ["Materials: " ++ materials] else []) ++
    (if care ≠ "" then ["Care: " ++ care] else []) ++
    (if materials = "" && care = "" then [snippet ++ "…"] else [])
  else []

/-- The `Colors:` / `Sizes:` block of the loop body (source lines 407-417). -/
def optLinesOf (optI : Bool) (variants : List Variant) (snippet : String) : List String :=
  if optI then
    if variants.length ≠ 0 then
      let colors := firstDedup ((variants.map (fun v => jsTrim v.color)).filter (fun c => c ≠ ""))
      let sizes := firstDedup ((variants.map (fun v => jsTrim v.size)).filter (fun c => c ≠ ""))
      (if colors.length ≠ 0 then ["Colors: " ++ joinWith ", " colors] else []) ++
      (if sizes.length ≠ 0 then ["Sizes: " ++ joinWith ", " sizes] else [])
    else [snippet ++ "…"]
  else []

/-- The `Warranty:` block of the loop body (source lines 420-426). -/
def warLinesOf (warI : Bool) (warranty : String) : List String :=
  if warI then
    if warranty ≠ "" then ["Warranty: " ++ warranty]
    else ["Warranty details not specified on the product page."]
  else []

/-- The `Shipping:` block of the loop body (source lines 429-435). -/
def shipLinesOf (shipI : Bool) (shippingInfo : String) : List String :=
  if shipI then
    if shippingInfo ≠ "" then ["Shipping: " ++ shippingInfo]
    else ["Shipping/returns details not specified here. Check the store policy page via the link below."]
  else []

/-- The `Image:` block of the loop body (source lines 438-444). -/
def imgLinesOf (imgI : Bool) (mainImageSrc : String) : List String :=
  if imgI then
    if mainImageSrc ≠ "" then ["Image: " ++ mainImageSrc]
    else ["No image found in metadata; see product page."]
  else []

/-- The `Weight:` block of the loop body (source lines 447-455). -/
def wtLinesOf (wtI : Bool) (vMatch : Option Variant) : List String :=
  if wtI && vMatch.isSome then
    let v := vMatch.getD {}
    if v.weight ≠ "" then
      ["Weight: " ++ v.weight ++ (if jsTrim v.weight_unit ≠ "" then " " ++ jsTrim v.weight_unit else "")]
    else ["Weight not specified for this variant."]
  else []

/-- The general fallback block of the loop body (source lines 458-473),
emitted only when no intent flag matched. -/
def generalLinesOf (noIntent : Bool) (pi : ProductInfo) (vMatch : Option Variant)
    (materials care snippet : String) : List String :=
  if noIntent then
    let g := (if pi.best_price ≠ "" then ["Price from: " ++ pi.best_price] else []) ++
      (if materials ≠ "" then ["Materials: " ++ materials] else []) ++
      (if care ≠ "" then ["Care: " ++ care] else []) ++
      (if pi.variants.length ≠ 0 && vMatch.isSome && (vMatch.getD {}).available.isSome then
        ["Availability: " ++ (if availTruthy (vMatch.getD {}) then "in stock" else "out of stock")]
      else [])
    if g.length = 0 then [snippet ++ "…"] else g
  else []

/-- The per-document body of the `for (const r of picked)` loop of
`formatProductAnswer` (source lines 349-476): builds the response lines for
one picked document, given the intent flags and the requested attributes
already extracted from the query. -/
def productLines (priceI availI matI optI warI shipI imgI wtI : Bool)
    (color size : Option String) (r : Doc) : List String :=
  let pi := piOf r
  let title := if r.title = "" then "Product" else r.title
  let snippet := jsTrim (jsTake r.text 220)
  let vMatch := vMatchOf color size pi.variants
  let mainImageSrc : String := (pi.images.head?).getD ""
  let noIntent := !priceI && !availI && !matI && !optI && !warI && !shipI && !imgI && !wtI
  [title] ++
  priceLinesOf priceI pi vMatch ++
  availLinesOf availI vMatch ++
  matLinesOf matI (jsTrim pi.materials) (jsTrim pi.care) snippet ++
  optLinesOf optI pi.variants snippet ++
  warLinesOf warI (jsTrim pi.warranty) ++
  shipLinesOf shipI (jsTrim pi.shipping_info) ++
  imgLinesOf imgI mainImageSrc ++
  wtLinesOf wtI vMatch ++
  generalLinesOf noIntent pi vMatch (jsTrim pi.materials) (jsTrim pi.care) snippet ++
  ["More details: " ++ r.url]

/-- `formatProductAnswer` from `server.js` (lines 316-480). -/
def formatProductAnswer (query : String) (hits : List Doc) : String :=
  let lower := jsToLower query
  let priceIntent := anyKeyword lower ["price", "cost", "how much", "₹", "$"]
  let availabilityIntent := anyKeyword lower ["available", "in stock", "out of stock", "stock"]
  let materialIntent := anyKeyword lower
    ["material", "quality", "fabric", "cotton", "leather", "steel", "wash", "care", "durable", "handmade"]
  let optionsIntent := anyKeyword lower
    ["size", "sizes", "color", "colour", "colors", "options", "variants"]
  let shippingIntent := anyKeyword lower
    ["shipping", "delivery", "returns", "refund", "warranty policy", "return policy"]
  let warrantyIntent := anyKeyword lower ["warranty", "guarantee"]
  let imageIntent := anyKeyword lower ["image", "photo", "picture"]
  let weightIntent := anyKeyword lower ["weight", "heavy", "light"]
  let color := queryColor lower
  let size := querySize lower
  let unique := dedupeByUrl hits
  let filtered := filterByAttributes unique color size
  let picked := filtered.take 1
  joinWith "\n\n"
    (picked.map (fun r =>
      joinWith "\n"
        (productLines priceIntent availabilityIntent materialIntent optionsIntent
          warrantyIntent shippingIntent imageIntent weightIntent color size r)))

/-- A message of a session's history. -/
structure Message where
  role : String
  content : String
  timestamp : Nat
  searchResults : Option (List Source) := none
deriving Repr, DecidableEq

/-- Session state stored in the `userSessions` map (the fields the chat
pipeline reads: `context.orderId` and `messages`). -/
structure Session where
  context_orderId : Option String := none
  messages : List Message := []
deriving Repr, DecidableEq

/-- The fixed apology template of the no-results branch of `generateResponse`. -/
def noInfoTemplate : String :=
  "I\x27m sorry, I couldn\x27t find specific information about that. Could you please rephrase your question or ask about something else I might be able to help with?"

/-- `generateResponse` from `server.js` (lines 498-512); `results = none`
models a non-array value (`Array.isArray` false). The `sess` argument is
accepted, as in the source, but never read. -/
def generateResponse (message : String) (results : Option (List Doc)) (_sess : Session) : String :=
  if isPersonalizedQuery message then handlePersonalizedQuery message
  else
    let top := (results.getD []).take 3
    if top.isEmpty then noInfoTemplate
    else if isProductQuery message then formatProductAnswer message top
    else
      let context := joinWith "\n\n" (top.map (fun r => jsTake r.text 300))
      "Based on the information I found:\n\n" ++ context ++
        "\n\nWould you like me to provide more specific details about any particular aspect?"

/-- The fixed prompt of `handleOrderTracking` when no order id is known. -/
def trackingPromptTemplate : String :=
  "I\x27d be happy to help you track your order! Please provide your order ID or order number."

/-- `handleOrderTracking` from `server.js` (lines 263-272); the random
tracking info is the explicit `mock` parameter. -/
def handleOrderTracking (_message : String) (sess : Session) (mock : TrackingInfo) : String :=
  match sess.context_orderId with
  | some oid =>
    "Your order " ++ oid ++ " status: " ++ mock.status ++ ". " ++ mock.details
  | none => trackingPromptTemplate

/-- Outcome of one `searchKnowledgeBase` subprocess invocation: a parsed
JSON array, a parsed non-array value, or a failure (non-zero exit or
unparsable output, i.e. a rejected promise). -/
inductive SearchOutcome where
  | okArr (docs : List Doc)
  | okNonArr
  | err
deriving Repr, DecidableEq

/-- The document list the handler continues with:
`Array.isArray(rawResults) ? rawResults : []`. -/
def normDocs : SearchOutcome → List Doc
  | .okArr docs => docs
  | _ => []

/-- The fixed apology of the retrieval-failure early return. -/
def apologyTemplate : String :=
  "I\x27m having trouble searching the knowledge base right now. Please try again shortly."

/-- Observable result of one `/api/chat` request.  `earlyOk` is the
status-200 early return of the retrieval-failure path: its body carries no
sources array at all. -/
inductive ChatResult where
  | badRequest
  | serverError
  | earlyOk (response : String) (sessionId : String)
  | ok (response : String) (sessionId : String) (sources : List Source)
deriving Repr, DecidableEq

/-- The in-memory `userSessions` map. -/
def Store : Type := String → Option Session

/-- Map update (`userSessions.set`). -/
def storeSet (st : Store) (sid : String) (s : Session) : Store :=
  fun k => if k = sid then some s else st k

/-- The empty `userSessions` map. -/
def emptyStore : Store := fun _ => none

/-- One turn of the `/api/chat` handler (`server.js` lines 115-204).
`s1` is the outcome of the in-branch `searchKnowledgeBase` call (line 150,
reached only for non-order-tracking messages; a failure there propagates to
the outer catch and yields a 500), `s2` the outcome of the unconditional
second call (line 156, guarded by its own try/catch).  `tU`/`tA` are the
timestamps of the user/assistant pushes.  Because JavaScript sessions are
mutated in place, a push into a session that already lives in the map is
visible in the map even on the early-return paths; a freshly created
session only enters the map at the final `userSessions.set`. -/
def handleChat (message sessionId : String) (store : Store)
    (s1 s2 : SearchOutcome) (tU tA : Nat) (mock : TrackingInfo) :
    ChatResult × Store :=
  if message = "" ∨ sessionId = "" then (ChatResult.badRequest, store)
  else
    let existed := (store sessionId).isSome
    let sess0 := (store sessionId).getD {}
    let sess1 : Session :=
      { sess0 with messages := sess0.messages ++
          [{ role := "user", content := message, timestamp := tU }] }
    let store1 := if existed then storeSet store sessionId sess1 else store
    let branch : Except Unit String :=
      if isOrderTrackingQuery message then
        Except.ok (handleOrderTracking message sess1 mock)
      else
        match s1 with
        | .err => Except.error ()
        | .okArr docs => Except.ok (generateResponse message (some docs) sess1)
        | .okNonArr => Except.ok (generateResponse message none sess1)
    match branch with
    | .error _ => (ChatResult.serverError, store1)
    | .ok _deadResponse =>
      match s2 with
      | .err => (ChatResult.earlyOk apologyTemplate sessionId, store1)
      | _ =>
        let norm := normDocs s2
        let response := generateResponse message (some norm) sess1
        let sess2 : Session :=
          { sess1 with messages := sess1.messages ++
              [{ role := "assistant", content := response, timestamp := tA,
                 searchResults := some (norm.map docToSource) }] }
        let store2 := storeSet store1 sessionId sess2
        (ChatResult.ok response sessionId ((norm.take 3).map docToSource), store2)

/-- Inputs of one `/api/chat` turn against a fixed session id. -/
structure TurnInput where
  message : String
  s1 : SearchOutcome
  s2 : SearchOutcome
  tU : Nat
  tA : Nat
  mock : TrackingInfo
deriving Repr, DecidableEq

/-- Run a sequence of turns, all with the same session id, threading the
session store. -/
def runTurns (sid : String) (store : Store) : List TurnInput → Store
  | [] => store
  | t :: ts => runTurns sid (handleChat t.message sid store t.s1 t.s2 t.tU t.tA t.mock).2 ts

/-- The response text carried by a chat result (empty for the error results,
whose bodies carry no `response` field of their own). -/
def respOf : ChatResult → String
  | .ok r _ _ => r
  | .earlyOk r _ => r
  | .badRequest => ""
  | .serverError => ""

/-- The user message a turn pushes into the session. -/
def mkUserMsg (t : TurnInput) : Message :=
  { role := "user", content := t.message, timestamp := t.tU }

/-- The assistant message a successful turn pushes into the session. -/
def mkAsstMsg (t : TurnInput) : Message :=
  { role := "assistant", content := generateResponse t.message (some (normDocs t.s2)) {},
    timestamp := t.tA, searchResults := some ((normDocs t.s2).map docToSource) }

/-- The message sequence N successful turns append: one user message
followed by one assistant message per turn. -/
def flatMsgs : List TurnInput → List Message
  | [] => []
  | t :: ts => mkUserMsg t :: mkAsstMsg t :: flatMsgs ts

/-- The timestamp sequence of those messages. -/
def flatTimes : List TurnInput → List Nat
  | [] => []
  | t :: ts => t.tU :: t.tA :: flatTimes ts

/-- The expected role alternation for N turns. -/
def roleAlt : Nat → List String
  | 0 => []
  | n + 1 => "user" :: "assistant" :: roleAlt n

/-- A turn that completes the full success path of the handler: non-empty
message, no throwing first search in the non-order-tracking branch, and a
non-failing second search. -/
def SuccessTurn (t : TurnInput) : Prop :=
  t.message ≠ "" ∧ (isOrderTrackingQuery t.message = false → t.s1 ≠ SearchOutcome.err) ∧
    t.s2 ≠ SearchOutcome.err

instance (t : TurnInput) : Decidable (SuccessTurn t) := by
  unfold SuccessTurn; infer_instance

/-! Concrete data used by witnesses and counterexamples. -/

/-- A fixed tracking-info pick (the model's stand-in for `Math.random`). -/
def mock0 : TrackingInfo :=
  { status := "Processing", details := "Your order is being prepared for shipment." }

/-- The variant of the C6 scenario: color blue, size m, price $40, available. -/
def vB : Variant := { color := "blue", size := "m", price := "$40", available := some true }

/-- Product info holding only `vB`. -/
def piB : ProductInfo := { variants := [vB] }

/-- The product document of the C6 scenario. -/
def docB : Doc :=
  { title := "Hoodie", url := "u2", text := "a blue hoodie", product_info := some piB }

/-- A competing variant with a different price. -/
def vA : Variant := { color := "blue", size := "m", price := "$99", available := some true }

/-- Product info holding only `vA`. -/
def piA : ProductInfo := { variants := [vA] }

/-- A competing document ranked before `docB`, also matching blue/m. -/
def docA : Doc :=
  { title := "Other", url := "u1", text := "blue thing size m", product_info := some piA }

/-- A plain document used by witnesses. -/
def docW : Doc := { title := "Doc", url := "w", text := "words", score := 7 }

/-- A successful turn used by witnesses. -/
def turnA : TurnInput :=
  { message := "hello", s1 := SearchOutcome.okArr [], s2 := SearchOutcome.okArr [],
    tU := 0, tA := 1, mock := mock0 }

/-- A turn whose post-branch retrieval fails. -/
def turnB : TurnInput :=
  { message := "hello", s1 := SearchOutcome.okArr [], s2 := SearchOutcome.err,
    tU := 2, tA := 3, mock := mock0 }

/-! Helper lemmas. -/

lemma isPrefixOf_append_self (l t : List Char) : List.isPrefixOf l (l ++ t) = true := by
  induction l with
  | nil => simp [List.isPrefixOf]
  | cons a as ih => simp [List.isPrefixOf, ih]

lemma containsSubList_append (pre mid post : List Char) :
    containsSubList mid (pre ++ mid ++ post) = true := by
  induction pre with
  | nil =>
    cases mid with
    | nil =>
      cases post with
      | nil => rfl
      | cons c t => simp [containsSubList, List.isPrefixOf]
    | cons m ms =>
      simp only [List.nil_append, List.cons_append, containsSubList]
      have h : List.isPrefixOf (m :: ms) (m :: (ms ++ post)) = true := by
        have h0 := isPrefixOf_append_self (m :: ms) post
        rw [List.cons_append] at h0
        exact h0
      simp [h]
  | cons c pre' ih =>
    simp only [List.cons_append, containsSubList, Bool.or_eq_true]
    exact Or.inr (by simpa [List.append_assoc] using ih)

lemma containsSub_of_data_split (s sub : String) (pre post : List Char)
    (h : s.data = pre ++ sub.data ++ post) : containsSub s sub = true := by
  unfold containsSub
  rw [h]
  exact containsSubList_append pre sub.data post

lemma endsWithStr_of_data_split (s tail : String) (pre : List Char)
    (h : s.data = pre ++ tail.data) : endsWithStr s tail = true := by
  unfold endsWithStr
  rw [h]
  simp [List.isSuffixOf]

/-- Every element of a joined list occurs as a contiguous run of the joined
string. -/
lemma joinWith_data_split (sep : String) (l : List String) (x : String) (hx : x ∈ l) :
    ∃ pre post, (joinWith sep l).data = pre ++ x.data ++ post := by
  induction l with
  | nil => simp at hx
  | cons a t ih =>
    cases t with
    | nil =>
      simp only [List.mem_singleton] at hx
      subst hx
      exact ⟨[], [], by simp [joinWith]⟩
    | cons b t' =>
      rcases List.mem_cons.1 hx with h | h
      · subst h
        refine ⟨[], (sep ++ joinWith sep (b :: t')).data, ?_⟩
        simp [joinWith, String.data_append, List.append_assoc]
      · rcases ih h with ⟨p, q, hpq⟩
        refine ⟨(a ++ sep).data ++ p, q, ?_⟩
        simp [joinWith, String.data_append, hpq, List.append_assoc]

lemma containsSub_joinWith (sep : String) (l : List String) (x : String) (hx : x ∈ l) :
    containsSub (joinWith sep l) x = true := by
  rcases joinWith_data_split sep l x hx with ⟨p, q, h⟩
  exact containsSub_of_data_split _ _ p q h

/-- A joined list ends with its last element. -/
lemma endsWithStr_joinWith (sep : String) (init : List String) (last : String) :
    endsWithStr (joinWith sep (init ++ [last])) last = true := by
  have key : ∀ init : List String, ∃ pre,
      (joinWith sep (init ++ [last])).data = pre ++ last.data := by
    intro init
    induction init with
    | nil => exact ⟨[], by simp [joinWith]⟩
    | cons a t ih =>
      rcases ih with ⟨p, hp⟩
      cases t with
      | nil =>
        refine ⟨(a ++ sep).data, ?_⟩
        simp [joinWith, String.data_append, List.append_assoc]
      | cons b t' =>
        refine ⟨(a ++ sep).data ++ p, ?_⟩
        simp only [List.cons_append, joinWith, String.data_append] at hp ⊢
        simp [hp, List.append_assoc]
  rcases key init with ⟨p, hp⟩
  exact endsWithStr_of_data_split _ _ p hp

/-- `generateResponse` never reads its session argument. -/
lemma generateResponse_any_sess (m : String) (r : Option (List Doc)) (s : Session) :
    generateResponse m r s = generateResponse m r {} := rfl

/-- On a personalized message, `generateResponse` returns the disclaimer
template, whatever the retrieved documents and the session are. -/
lemma generateResponse_personalized (m : String) (r : Option (List Doc)) (s : Session)
    (h : isPersonalizedQuery m = true) :
    generateResponse m r s = handlePersonalizedQuery m := by
  simp [generateResponse, h]

lemma isPersonalizedQuery_ne_empty (m : String) (h : isPersonalizedQuery m = true) :
    m ≠ "" := by
  intro he
  subst he
  exact absurd h (by decide)

/-- Shape of a completed turn: when validation passes, the branch does not
throw, and the post-branch search succeeds, the handler answers 200 with the
response regenerated from the post-branch documents and the projected
3-document prefix as sources. -/
lemma handleChat_result (message sessionId : String) (store : Store)
    (s1 s2 : SearchOutcome) (tU tA : Nat) (mock : TrackingInfo)
    (hm : message ≠ "") (hsid : sessionId ≠ "")
    (hbr : isOrderTrackingQuery message = true ∨ s1 ≠ SearchOutcome.err)
    (hs2 : s2 ≠ SearchOutcome.err) :
    (handleChat message sessionId store s1 s2 tU tA mock).1 =
      ChatResult.ok (generateResponse message (some (normDocs s2)) {}) sessionId
        (((normDocs s2).take 3).map docToSource) := by
  unfold handleChat
  rw [if_neg (by push_neg; exact ⟨hm, hsid⟩)]
  cases horder : isOrderTrackingQuery message with
  | true =>
    cases s2 with
    | err => exact absurd rfl hs2
    | okArr docs => simp [horder, normDocs, generateResponse_any_sess]
    | okNonArr => simp [horder, normDocs, generateResponse_any_sess]
  | false =>
    have hs1 : s1 ≠ SearchOutcome.err := by
      rcases hbr with h | h
      · rw [horder] at h; cases h
      · exact h
    cases s1 with
    | err => exact absurd rfl hs1
    | okArr docs1 =>
      cases s2 with
      | err => exact absurd rfl hs2
      | okArr docs => simp [horder, normDocs, generateResponse_any_sess]
      | okNonArr => simp [horder, normDocs, generateResponse_any_sess]
    | okNonArr =>
      cases s2 with
      | err => exact absurd rfl hs2
      | okArr docs => simp [horder, normDocs, generateResponse_any_sess]
      | okNonArr => simp [horder, normDocs, generateResponse_any_sess]

/-- C1: for every message containing a personalized-account phrase, a
completed `/api/chat` turn replies with the template chosen by
`handlePersonalizedQuery`, whatever the values of `isOrderTrackingQuery` and
`isProductQuery` on that message — the personalized check wins. -/
theorem C1_personalized_priority (message sessionId : String) (store : Store)
    (s1 s2 : SearchOutcome) (tU tA : Nat) (mock : TrackingInfo)
    (hper : isPersonalizedQuery message = true) (hsid : sessionId ≠ "")
    (hs1 : s1 ≠ SearchOutcome.err) (hs2 : s2 ≠ SearchOutcome.err) :
    (handleChat message sessionId store s1 s2 tU tA mock).1 =
      ChatResult.ok (handlePersonalizedQuery message) sessionId
        (((normDocs s2).take 3).map docToSource) := by
  rw [handleChat_result message sessionId store s1 s2 tU tA mock
    (isPersonalizedQuery_ne_empty message hper) hsid (Or.inr hs1) hs2,
    generateResponse_personalized _ _ _ hper]

/-- C1 witness: "my order and the blue shirt price" contains the personal
phrase "my order" together with order-tracking and product keywords, and the
reply is still the personalized disclaimer. -/
theorem C1_personalized_priority_witness :
    isPersonalizedQuery "my order and the blue shirt price" = true ∧
    isOrderTrackingQuery "my order and the blue shirt price" = true ∧
    isProductQuery "my order and the blue shirt price" = true ∧
    (handleChat "my order and the blue shirt price" "w1" emptyStore
        (SearchOutcome.okArr []) (SearchOutcome.okArr []) 0 1 mock0).1 =
      ChatResult.ok (handlePersonalizedQuery "my order and the blue shirt price") "w1" [] := by
  refine ⟨by decide, by decide, by decide, ?_⟩
  have h := C1_personalized_priority "my order and the blue shirt price" "w1" emptyStore
    (SearchOutcome.okArr []) (SearchOutcome.okArr []) 0 1 mock0
    (by decide) (by decide) (by decide) (by decide)
  simpa [normDocs] using h

/-- Shape of the retrieval-failure early return: when the post-branch search
fails but the branch itself did not throw, the handler answers 200 with the
fixed apology and the session id, and no sources. -/
lemma handleChat_early (message sessionId : String) (store : Store)
    (s1 : SearchOutcome) (tU tA : Nat) (mock : TrackingInfo)
    (hm : message ≠ "") (hsid : sessionId ≠ "")
    (hbr : isOrderTrackingQuery message = true ∨ s1 ≠ SearchOutcome.err) :
    (handleChat message sessionId store s1 SearchOutcome.err tU tA mock).1 =
      ChatResult.earlyOk apologyTemplate sessionId := by
  unfold handleChat
  rw [if_neg (by push_neg; exact ⟨hm, hsid⟩)]
  cases horder : isOrderTrackingQuery message with
  | true => simp [horder]
  | false =>
    have hs1 : s1 ≠ SearchOutcome.err := by
      rcases hbr with h | h
      · rw [horder] at h; cases h
      · exact h
    cases s1 with
    | err => exact absurd rfl hs1
    | okArr docs1 => simp [horder]
    | okNonArr => simp [horder]

/-- C2 counterexample: for the non-order-tracking message "hello" whose
single (deterministic) retrieval failure already hits the first
`searchKnowledgeBase` call inside the branch, the handler falls through to
the outer catch and answers with the 500 `serverError`, not with the
status-200 apology body the claim promises. -/
theorem C2_first_search_failure_counterexample :
    isOrderTrackingQuery "hello" = false ∧
    (handleChat "hello" "s1" emptyStore SearchOutcome.err SearchOutcome.err 0 1 mock0).1 =
      ChatResult.serverError ∧
    (handleChat "hello" "s1" emptyStore SearchOutcome.err SearchOutcome.err 0 1 mock0).1 ≠
      ChatResult.earlyOk apologyTemplate "s1" := by
  refine ⟨by decide, by decide, by decide⟩

/-- C2 (amended): when the failing retrieval is the post-branch one — the
message is order-tracking, or the in-branch first search did not throw — the
handler answers status 200 with exactly the apology body and the session id
and no sources; but a failure of the first in-branch search of a
non-order-tracking turn yields the 500 `serverError` instead. -/
theorem C2_retrieval_failure_apology (message sessionId : String) (store : Store)
    (s1 : SearchOutcome) (tU tA : Nat) (mock : TrackingInfo)
    (hm : message ≠ "") (hsid : sessionId ≠ "")
    (hbr : isOrderTrackingQuery message = true ∨ s1 ≠ SearchOutcome.err) :
    (handleChat message sessionId store s1 SearchOutcome.err tU tA mock).1 =
      ChatResult.earlyOk apologyTemplate sessionId ∧
    (isOrderTrackingQuery message = false → ∀ tU2 tA2,
      (handleChat message sessionId store SearchOutcome.err SearchOutcome.err tU2 tA2 mock).1 =
        ChatResult.serverError) := by
  refine ⟨handleChat_early message sessionId store s1 tU tA mock hm hsid hbr, ?_⟩
  intro horder tU2 tA2
  unfold handleChat
  rw [if_neg (by push_neg; exact ⟨hm, hsid⟩)]
  simp [horder]

/-- C2 witness: an order-tracking message whose post-branch retrieval fails
receives the status-200 apology. -/
theorem C2_retrieval_failure_apology_witness :
    (handleChat "track my order" "w2" emptyStore (SearchOutcome.okArr [])
        SearchOutcome.err 0 1 mock0).1 = ChatResult.earlyOk apologyTemplate "w2" := by
  exact (C2_retrieval_failure_apology "track my order" "w2" emptyStore
    (SearchOutcome.okArr []) 0 1 mock0 (by decide) (by decide) (Or.inl (by decide))).1

/-- C3 counterexample: on the message "track my order" with no orderId in
the (empty) session store, the completed turn's reply is the personalized
order-status disclaimer, not the `handleOrderTracking` prompt, and the
result depends on the outcome of the post-branch `searchKnowledgeBase`
call — so retrieval is performed during the turn. -/
theorem C3_track_my_order_counterexample :
    (handleChat "track my order" "s" emptyStore SearchOutcome.err
        (SearchOutcome.okArr []) 0 1 mock0).1 =
      ChatResult.ok (handlePersonalizedQuery "track my order") "s" [] ∧
    handlePersonalizedQuery "track my order" ≠ trackingPromptTemplate ∧
    (handleChat "track my order" "s" emptyStore SearchOutcome.err
        (SearchOutcome.okArr []) 0 1 mock0).1 ≠
      (handleChat "track my order" "s" emptyStore SearchOutcome.err
        SearchOutcome.err 0 1 mock0).1 := by
  refine ⟨by decide, by decide, by decide⟩

/-- C3 (amended): on "track my order" with no orderId in context, the
post-branch retrieval is still performed; when it succeeds the reply is the
fixed personalized order-status template (which asks for the order number),
and the order-tracking prompt computed by the branch is discarded. -/
theorem C3_track_my_order_reply (sessionId : String) (store : Store)
    (s1 s2 : SearchOutcome) (tU tA : Nat) (mock : TrackingInfo)
    (hsid : sessionId ≠ "") (hs2 : s2 ≠ SearchOutcome.err)
    (_hoid : ((store sessionId).getD {}).context_orderId = none) :
    (handleChat "track my order" sessionId store s1 s2 tU tA mock).1 =
      ChatResult.ok (handlePersonalizedQuery "track my order") sessionId
        (((normDocs s2).take 3).map docToSource) := by
  rw [handleChat_result "track my order" sessionId store s1 s2 tU tA mock
    (by decide) hsid (Or.inl (by decide)) hs2,
    generateResponse_personalized _ _ _ (by decide)]

/-- C3 witness. -/
theorem C3_track_my_order_reply_witness :
    (handleChat "track my order" "w3" emptyStore SearchOutcome.err
        (SearchOutcome.okArr [docW]) 0 1 mock0).1 =
      ChatResult.ok (handlePersonalizedQuery "track my order") "w3" [docToSource docW] := by
  have h := C3_track_my_order_reply "w3" emptyStore SearchOutcome.err
    (SearchOutcome.okArr [docW]) 0 1 mock0 (by decide) (by decide) (by decide)
  simpa [normDocs] using h

set_option maxRecDepth 4000 in
/-- C8: on the message "my refund status" the completed turn's reply is
exactly the fixed refund-disclaimer template, for every session store (any
context, any orderId), every first-search outcome, and every retrieved
document list. -/
theorem C8_refund_template (sessionId : String) (store : Store)
    (s1 s2 : SearchOutcome) (tU tA : Nat) (mock : TrackingInfo)
    (hsid : sessionId ≠ "") (hs2 : s2 ≠ SearchOutcome.err) :
    (handleChat "my refund status" sessionId store s1 s2 tU tA mock).1 =
      ChatResult.ok
        "To check your refund status, please provide your order number and the date of your refund request. You can also check your refund status in your account dashboard."
        sessionId (((normDocs s2).take 3).map docToSource) := by
  rw [handleChat_result "my refund status" sessionId store s1 s2 tU tA mock
    (by decide) hsid (Or.inl (by decide)) hs2,
    generateResponse_personalized _ _ _ (by decide)]
  have h : handlePersonalizedQuery "my refund status" =
      "To check your refund status, please provide your order number and the date of your refund request. You can also check your refund status in your account dashboard." := by
    decide
  rw [h]

/-- C8 witness: a store already holding an orderId and a non-empty document
list still yield the refund template. -/
theorem C8_refund_template_witness :
    (handleChat "my refund status" "w8"
        (storeSet emptyStore "w8" { context_orderId := some "o1", messages := [] })
        SearchOutcome.err (SearchOutcome.okArr [docW]) 0 1 mock0).1 =
      ChatResult.ok
        "To check your refund status, please provide your order number and the date of your refund request. You can also check your refund status in your account dashboard."
        "w8" [docToSource docW] := by
  have h := C8_refund_template "w8"
    (storeSet emptyStore "w8" { context_orderId := some "o1", messages := [] })
    SearchOutcome.err (SearchOutcome.okArr [docW]) 0 1 mock0 (by decide) (by decide)
  simpa [normDocs] using h

/-- Every `/api/chat` result is one of: 400, 500, the apology early return,
or the success shape whose sources are the projected 3-prefix of the
post-branch documents. -/
lemma handleChat_cases (message sessionId : String) (store : Store)
    (s1 s2 : SearchOutcome) (tU tA : Nat) (mock : TrackingInfo) :
    (handleChat message sessionId store s1 s2 tU tA mock).1 = ChatResult.badRequest ∨
    (handleChat message sessionId store s1 s2 tU tA mock).1 = ChatResult.serverError ∨
    (handleChat message sessionId store s1 s2 tU tA mock).1 =
      ChatResult.earlyOk apologyTemplate sessionId ∨
    (handleChat message sessionId store s1 s2 tU tA mock).1 =
      ChatResult.ok (generateResponse message (some (normDocs s2)) {}) sessionId
        (((normDocs s2).take 3).map docToSource) := by
  by_cases hv : message = "" ∨ sessionId = ""
  · left; unfold handleChat; rw [if_pos hv]
  · push_neg at hv
    cases horder : isOrderTrackingQuery message with
    | true =>
      cases s2 with
      | err =>
        right; right; left
        exact handleChat_early message sessionId store s1 tU tA mock hv.1 hv.2 (Or.inl horder)
      | okArr docs =>
        right; right; right
        exact handleChat_result message sessionId store s1 _ tU tA mock hv.1 hv.2
          (Or.inl horder) (by simp)
      | okNonArr =>
        right; right; right
        exact handleChat_result message sessionId store s1 _ tU tA mock hv.1 hv.2
          (Or.inl horder) (by simp)
    | false =>
      cases s1 with
      | err =>
        right; left
        unfold handleChat
        rw [if_neg (by push_neg; exact hv)]
        simp [horder]
      | okArr docs1 =>
        cases s2 with
        | err =>
          right; right; left
          exact handleChat_early message sessionId store _ tU tA mock hv.1 hv.2
            (Or.inr (by simp))
        | okArr docs =>
          right; right; right
          exact handleChat_result message sessionId store _ _ tU tA mock hv.1 hv.2
            (Or.inr (by simp)) (by simp)
        | okNonArr =>
          right; right; right
          exact handleChat_result message sessionId store _ _ tU tA mock hv.1 hv.2
            (Or.inr (by simp)) (by simp)
      | okNonArr =>
        cases s2 with
        | err =>
          right; right; left
          exact handleChat_early message sessionId store _ tU tA mock hv.1 hv.2
            (Or.inr (by simp))
        | okArr docs =>
          right; right; right
          exact handleChat_result message sessionId store _ _ tU tA mock hv.1 hv.2
            (Or.inr (by simp)) (by simp)
        | okNonArr =>
          right; right; right
          exact handleChat_result message sessionId store _ _ tU tA mock hv.1 hv.2
            (Or.inr (by simp)) (by simp)

/-- C5: whenever a turn answers with the success shape, its sources are the
projection of the 3-element prefix of the document list retrieved by the
(post-branch) search of that turn, in retriever order, hence at most 3. -/
theorem C5_sources_take3 (message sessionId : String) (store : Store)
    (s1 s2 : SearchOutcome) (tU tA : Nat) (mock : TrackingInfo)
    (resp rsid : String) (srcs : List Source)
    (h : (handleChat message sessionId store s1 s2 tU tA mock).1 =
      ChatResult.ok resp rsid srcs) :
    srcs = ((normDocs s2).take 3).map docToSource ∧
    (normDocs s2).take 3 <+: normDocs s2 ∧
    srcs.length ≤ 3 := by
  rcases handleChat_cases message sessionId store s1 s2 tU tA mock with hc | hc | hc | hc <;>
    rw [hc] at h
  · cases h
  · cases h
  · cases h
  · rw [ChatResult.ok.injEq] at h
    refine ⟨h.2.2.symm, ⟨(normDocs s2).drop 3, List.take_append_drop 3 (normDocs s2)⟩, ?_⟩
    rw [← h.2.2, List.length_map, List.length_take]
    exact min_le_left _ _

/-- C5 witness: a successful turn retrieving one document cites exactly its
projection. -/
theorem C5_sources_take3_witness :
    [docToSource docW] =
      ((normDocs (SearchOutcome.okArr [docW])).take 3).map docToSource ∧
    (normDocs (SearchOutcome.okArr [docW])).take 3 <+:
      normDocs (SearchOutcome.okArr [docW]) ∧
    ([docToSource docW] : List Source).length ≤ 3 := by
  exact C5_sources_take3 "track my order" "w5" emptyStore (SearchOutcome.okArr [])
    (SearchOutcome.okArr [docW]) 0 1 mock0
    (handlePersonalizedQuery "track my order") "w5" [docToSource docW] (by decide)

/-- Pairing of sources with the documents they cite. -/
lemma forall₂_docToSource (l : List Doc) :
    List.Forall₂ (fun (s : Source) (d : Doc) =>
      s.title = d.title ∧ s.url = d.url ∧ s.score = d.score) (l.map docToSource) l := by
  induction l with
  | nil => exact List.Forall₂.nil
  | cons d t ih => exact List.Forall₂.cons ⟨rfl, rfl, rfl⟩ ih

/-- C9: in every success response, each source is the image of the
corresponding retrieved document with `title`, `url`, `score` copied
unchanged — and a `Source` consists of those three fields only, so no other
document field (in particular `text` or `product_info`) is exposed. -/
theorem C9_source_round_trip (message sessionId : String) (store : Store)
    (s1 s2 : SearchOutcome) (tU tA : Nat) (mock : TrackingInfo)
    (resp rsid : String) (srcs : List Source)
    (h : (handleChat message sessionId store s1 s2 tU tA mock).1 =
      ChatResult.ok resp rsid srcs) :
    List.Forall₂ (fun (s : Source) (d : Doc) =>
      s.title = d.title ∧ s.url = d.url ∧ s.score = d.score)
      srcs ((normDocs s2).take 3) := by
  rcases handleChat_cases message sessionId store s1 s2 tU tA mock with hc | hc | hc | hc <;>
    rw [hc] at h
  · cases h
  · cases h
  · cases h
  · rw [ChatResult.ok.injEq] at h
    rw [← h.2.2]
    exact forall₂_docToSource _

/-- C9 witness. -/
theorem C9_source_round_trip_witness :
    List.Forall₂ (fun (s : Source) (d : Doc) =>
      s.title = d.title ∧ s.url = d.url ∧ s.score = d.score)
      [docToSource docW] ((normDocs (SearchOutcome.okArr [docW])).take 3) := by
  exact C9_source_round_trip "track my order" "w9" emptyStore (SearchOutcome.okArr [])
    (SearchOutcome.okArr [docW]) 0 1 mock0
    (handlePersonalizedQuery "track my order") "w9" [docToSource docW] (by decide)

/-- The `pick` accumulation loop is exactly an order-preserving filter. -/
lemma filterPick_eq_filter (c s : Option String) (hits : List Doc) :
    filterPick c s hits = hits.filter (docMatchesAttr c s) := by
  induction hits with
  | nil => rfl
  | cons h t ih => simp [filterPick, List.filter_cons, ih]

/-- C7: with no requested color/size the input is returned unchanged;
otherwise the result is either the order-preserving subsequence of documents
matching the requested attributes (by variant or by text), or — when that
subsequence is empty — the full input; the result is always a subsequence of
the input and is never empty for a non-empty input. -/
theorem C7_filter_fallback (hits : List Doc) (c s : Option String) :
    filterByAttributes hits none none = hits ∧
    ((c ≠ none ∨ s ≠ none) →
      (hits.filter (docMatchesAttr c s) ≠ [] →
        filterByAttributes hits c s = hits.filter (docMatchesAttr c s)) ∧
      (hits.filter (docMatchesAttr c s) = [] →
        filterByAttributes hits c s = hits)) ∧
    (filterByAttributes hits c s = hits ∨
      filterByAttributes hits c s = hits.filter (docMatchesAttr c s)) ∧
    (filterByAttributes hits c s).Sublist hits ∧
    (hits ≠ [] → filterByAttributes hits c s ≠ []) := by
  have hshape : filterByAttributes hits c s = hits ∨
      filterByAttributes hits c s = hits.filter (docMatchesAttr c s) := by
    unfold filterByAttributes
    by_cases hcs : (c.isNone && s.isNone) = true
    · rw [if_pos hcs]; exact Or.inl rfl
    · rw [if_neg hcs]
      simp only [filterPick_eq_filter]
      by_cases hemp : (hits.filter (docMatchesAttr c s)).isEmpty = true
      · rw [if_pos hemp]; exact Or.inl rfl
      · rw [if_neg hemp]; exact Or.inr rfl
  refine ⟨by simp [filterByAttributes], ?_, hshape, ?_, ?_⟩
  · intro hns
    have hcs : ¬((c.isNone && s.isNone) = true) := by
      rcases hns with h | h <;> cases c <;> cases s <;> simp_all
    constructor
    · intro hne
      unfold filterByAttributes
      rw [if_neg hcs]
      simp only [filterPick_eq_filter]
      rw [if_neg (by simp [hne])]
    · intro hemp
      unfold filterByAttributes
      rw [if_neg hcs]
      simp only [filterPick_eq_filter]
      rw [if_pos (by simp [hemp])]
  · rcases hshape with h | h
    · rw [h]
    · rw [h]; exact List.filter_sublist hits
  · intro hne
    unfold filterByAttributes
    by_cases hcs : (c.isNone && s.isNone) = true
    · rw [if_pos hcs]; exact hne
    · rw [if_neg hcs]
      by_cases hemp : (filterPick c s hits).isEmpty = true
      · rw [if_pos hemp]; exact hne
      · rw [if_neg hemp]
        intro habs
        rw [habs] at hemp
        exact hemp rfl

/-- C7 witness: with a requested color, a list holding one matching and one
non-matching document comes back as exactly the matching subsequence, and a
one-document list matching nothing still comes back non-empty (the
fallback). -/
theorem C7_filter_fallback_witness :
    filterByAttributes [docA, docW] (some "blue") none =
      List.filter (docMatchesAttr (some "blue") none) [docA, docW] ∧
    List.filter (docMatchesAttr (some "blue") none) [docA, docW] = [docA] ∧
    filterByAttributes [docW] (some "blue") none ≠ [] := by
  refine ⟨?_, by decide, ?_⟩
  · exact ((C7_filter_fallback [docA, docW] (some "blue") none).2.1
      (Or.inl (by decide))).1 (by decide)
  · exact (C7_filter_fallback [docW] (some "blue") none).2.2.2.2 (by decide)

/-- Every document surviving URL-deduplication has a non-empty `url`. -/
lemma dedupeByUrlAux_urls (hits : List Doc) :
    ∀ seen, ∀ h ∈ dedupeByUrlAux hits seen, h.url ≠ "" := by
  induction hits with
  | nil => intro seen h hmem; simp [dedupeByUrlAux] at hmem
  | cons d t ih =>
    intro seen h hmem
    unfold dedupeByUrlAux at hmem
    by_cases hcond : (decide (d.url ≠ "") && !seen.contains d.url) = true
    · rw [if_pos hcond] at hmem
      rcases List.mem_cons.1 hmem with h1 | h1
      · rw [h1]
        have hsplit := hcond
        simp only [Bool.and_eq_true, decide_eq_true_eq] at hsplit
        exact hsplit.1
      · exact ih _ h h1
    · rw [if_neg hcond] at hmem
      exact ih _ h hmem

/-- When no input document has a non-empty url, deduplication drops all. -/
lemma dedupeByUrlAux_all_empty (hits : List Doc) (hall : ∀ h ∈ hits, h.url = "") :
    ∀ seen, dedupeByUrlAux hits seen = [] := by
  induction hits with
  | nil => intro seen; rfl
  | cons d t ih =>
    intro seen
    unfold dedupeByUrlAux
    rw [if_neg (by simp [hall d (by simp)])]
    exact ih (fun h hm => hall h (by simp [hm])) seen

lemma filterByAttributes_empty (c s : Option String) : filterByAttributes [] c s = [] := by
  unfold filterByAttributes
  by_cases hcs : (c.isNone && s.isNone) = true
  · rw [if_pos hcs]
  · rw [if_neg hcs]; rfl

/-- C10: documents with an empty (or absent) `url` are dropped by the
URL-deduplication of `formatProductAnswer`; consequently, on a non-empty
hit list in which no document carries a url, `formatProductAnswer` returns
the empty string for every query — no product facts and no
"More details:" trailer, whatever any document's `product_info` holds. -/
theorem C10_url_dedupe_drops_all (query : String) (hits : List Doc)
    (_hne : hits ≠ []) (hall : ∀ h ∈ hits, h.url = "") :
    dedupeByUrl hits = [] ∧ formatProductAnswer query hits = "" := by
  have hd : dedupeByUrl hits = [] := dedupeByUrlAux_all_empty hits hall []
  refine ⟨hd, ?_⟩
  unfold formatProductAnswer
  simp only [hd, filterByAttributes_empty, List.take_nil, List.map_nil]
  rfl

/-- C10 witness: a document with product facts but no url yields the empty
reply. -/
theorem C10_url_dedupe_drops_all_witness :
    dedupeByUrl [{ title := "T", url := "", text := "blue m", product_info := some piB }] = [] ∧
    formatProductAnswer "What is the price of the blue hoodie in size M?"
      [{ title := "T", url := "", text := "blue m", product_info := some piB }] = "" := by
  exact C10_url_dedupe_drops_all _ _ (by decide) (by decide)

/-- Store effect of one fully successful turn: the stored session keeps its
context and gains exactly one user message followed by one assistant
message. -/
lemma handleChat_success_store (t : TurnInput) (sid : String) (store : Store)
    (hsid : sid ≠ "") (ht : SuccessTurn t) :
    (handleChat t.message sid store t.s1 t.s2 t.tU t.tA t.mock).2 sid =
      some { context_orderId := ((store sid).getD {}).context_orderId,
             messages := ((store sid).getD {}).messages ++ [mkUserMsg t, mkAsstMsg t] } := by
  obtain ⟨hm, hs1i, hs2⟩ := ht
  unfold handleChat
  rw [if_neg (by push_neg; exact ⟨hm, hsid⟩)]
  cases horder : isOrderTrackingQuery t.message with
  | true =>
    cases hs2v : t.s2 with
    | err => exact absurd hs2v hs2
    | okArr docs =>
      simp [horder, hs2v, storeSet, mkUserMsg, mkAsstMsg, normDocs,
        generateResponse_any_sess, List.append_assoc]
    | okNonArr =>
      simp [horder, hs2v, storeSet, mkUserMsg, mkAsstMsg, normDocs,
        generateResponse_any_sess, List.append_assoc]
  | false =>
    have hs1 : t.s1 ≠ SearchOutcome.err := hs1i horder
    cases hs1v : t.s1 with
    | err => exact absurd hs1v hs1
    | okArr docs1 =>
      cases hs2v : t.s2 with
      | err => exact absurd hs2v hs2
      | okArr docs =>
        simp [horder, hs2v, storeSet, mkUserMsg, mkAsstMsg, normDocs,
          generateResponse_any_sess, List.append_assoc]
      | okNonArr =>
        simp [horder, hs2v, storeSet, mkUserMsg, mkAsstMsg, normDocs,
          generateResponse_any_sess, List.append_assoc]
    | okNonArr =>
      cases hs2v : t.s2 with
      | err => exact absurd hs2v hs2
      | okArr docs =>
        simp [horder, hs2v, storeSet, mkUserMsg, mkAsstMsg, normDocs,
          generateResponse_any_sess, List.append_assoc]
      | okNonArr =>
        simp [horder, hs2v, storeSet, mkUserMsg, mkAsstMsg, normDocs,
          generateResponse_any_sess, List.append_assoc]

/-- Accumulated store content over a run of successful turns. -/
lemma runTurns_messages (sid : String) (hsid : sid ≠ "") :
    ∀ (ts : List TurnInput) (store : Store), (∀ t ∈ ts, SuccessTurn t) →
      (((runTurns sid store ts) sid).getD {}).messages =
        ((store sid).getD {}).messages ++ flatMsgs ts := by
  intro ts
  induction ts with
  | nil => intro store _; simp [runTurns, flatMsgs]
  | cons t ts' ih =>
    intro store hall
    have hstep := handleChat_success_store t sid store hsid (hall t (by simp))
    have hrec := ih (handleChat t.message sid store t.s1 t.s2 t.tU t.tA t.mock).2
      (fun u hu => hall u (by simp [hu]))
    show (((runTurns sid (handleChat t.message sid store t.s1 t.s2 t.tU t.tA t.mock).2 ts') sid).getD
        {}).messages = _
    rw [hrec, hstep]
    simp [flatMsgs, List.append_assoc]

lemma flatMsgs_length (ts : List TurnInput) : (flatMsgs ts).length = 2 * ts.length := by
  induction ts with
  | nil => rfl
  | cons t ts' ih => simp [flatMsgs, ih]; ring

lemma flatMsgs_roles (ts : List TurnInput) :
    (flatMsgs ts).map Message.role = roleAlt ts.length := by
  induction ts with
  | nil => rfl
  | cons t ts' ih => simp [flatMsgs, roleAlt, mkUserMsg, mkAsstMsg, ih]

lemma flatMsgs_timestamps (ts : List TurnInput) :
    (flatMsgs ts).map Message.timestamp = flatTimes ts := by
  induction ts with
  | nil => rfl
  | cons t ts' ih => simp [flatMsgs, flatTimes, mkUserMsg, mkAsstMsg, ih]

/-- C4 (amended): (1) over any number of fully successful turns the stored
session history is exactly one user message followed by one assistant
message per turn — so its length is 2N, roles alternate user/assistant, and
it is strictly timestamp-ordered whenever the per-push clock values are
strictly increasing; (2) every turn, including the retrieval-failure early
return, only ever appends to the stored history (append-only).  A
retrieval-failure turn on an existing session appends the unpaired user
message, which breaks the 2N count — see the counterexample. -/
theorem C4_history_shape :
    (∀ (sid : String) (ts : List TurnInput), sid ≠ "" → (∀ t ∈ ts, SuccessTurn t) →
      (((runTurns sid emptyStore ts) sid).getD {}).messages = flatMsgs ts ∧
      (((runTurns sid emptyStore ts) sid).getD {}).messages.length = 2 * ts.length ∧
      (((runTurns sid emptyStore ts) sid).getD {}).messages.map Message.role =
        roleAlt ts.length ∧
      (List.Chain' (· < ·) (flatTimes ts) →
        List.Chain' (fun a b => a.timestamp < b.timestamp)
          (((runTurns sid emptyStore ts) sid).getD {}).messages)) ∧
    (∀ (message sid : String) (store : Store) (s1 s2 : SearchOutcome) (tU tA : Nat)
        (mock : TrackingInfo),
      ((store sid).getD {}).messages <+:
        (((handleChat message sid store s1 s2 tU tA mock).2 sid).getD {}).messages) := by
  constructor
  · intro sid ts hsid hall
    have hmsgs : (((runTurns sid emptyStore ts) sid).getD {}).messages = flatMsgs ts := by
      have h := runTurns_messages sid hsid ts emptyStore hall
      simpa [emptyStore] using h
    refine ⟨hmsgs, by rw [hmsgs]; exact flatMsgs_length ts,
      by rw [hmsgs]; exact flatMsgs_roles ts, ?_⟩
    intro hchain
    rw [hmsgs]
    have hmap : List.Chain' (· < ·) ((flatMsgs ts).map Message.timestamp) := by
      rw [flatMsgs_timestamps]; exact hchain
    exact (List.chain'_map Message.timestamp).mp hmap
  · intro message sid store s1 s2 tU tA mock
    unfold handleChat
    by_cases hv : message = "" ∨ sid = ""
    · rw [if_pos hv]
    · rw [if_neg hv]
      cases hex : store sid with
      | none =>
        cases horder : isOrderTrackingQuery message <;>
          cases s1 <;> cases s2 <;>
            simp [horder, hex, storeSet]
      | some sess =>
        cases horder : isOrderTrackingQuery message <;>
          cases s1 <;> cases s2 <;>
            simp [horder, hex, storeSet]

/-- C4 counterexample: a successful turn followed by a turn whose post-branch
retrieval fails leaves the stored session with 3 messages, not 2 × 2 — the
failing turn pushed its user message into the already-stored session and
never pushed an assistant message. -/
theorem C4_counterexample :
    SuccessTurn turnA ∧
    (((runTurns "s" emptyStore [turnA, turnB]) "s").getD {}).messages.length = 3 ∧
    (3 : Nat) ≠ 2 * 2 := by
  refine ⟨by decide, by decide, by decide⟩

/-- C4 witness: one successful turn stores exactly the user/assistant pair. -/
theorem C4_history_shape_witness :
    (((runTurns "s" emptyStore [turnA]) "s").getD {}).messages = flatMsgs [turnA] ∧
    (((runTurns "s" emptyStore [turnA]) "s").getD {}).messages.length = 2 * 1 ∧
    (((runTurns "s" emptyStore [turnA]) "s").getD {}).messages.map Message.role =
      roleAlt 1 ∧
    (List.Chain' (· < ·) (flatTimes [turnA]) →
      List.Chain' (fun a b => a.timestamp < b.timestamp)
        (((runTurns "s" emptyStore [turnA]) "s").getD {}).messages) := by
  exact C4_history_shape.1 "s" [turnA] (by decide) (by decide)

/-- On the fixed C6 query, the extracted intents are price + options, the
color capture is "blue" and the size capture is "m". -/
lemma formatProductAnswer_priceMsg (hits : List Doc) :
    formatProductAnswer "What is the price of the blue hoodie in size M?" hits =
      joinWith "\n\n"
        (((filterByAttributes (dedupeByUrl hits) (some "blue") (some "m")).take 1).map
          (fun r => joinWith "\n"
            (productLines true false false true false false false false
              (some "blue") (some "m") r))) := rfl

/-- A document whose variants contain a match passes the attribute filter. -/
lemma docMatchesAttr_of_find (c s : Option String) (d : Doc) (v : Variant)
    (hfind : (piOf d).variants.find? (variantMatches c s) = some v) :
    docMatchesAttr c s d = true := by
  have hmem := List.mem_of_find?_eq_some hfind
  have hpred := List.find?_some hfind
  simp only [docMatchesAttr, Bool.or_eq_true, List.any_eq_true]
  exact Or.inl ⟨v, hmem, hpred⟩

/-- A first document with a url that matches the requested attributes is the
one picked by `formatProductAnswer`. -/
lemma picked_head (d : Doc) (rest : List Doc) (hu : d.url ≠ "")
    (hd : docMatchesAttr (some "blue") (some "m") d = true) :
    (filterByAttributes (dedupeByUrl (d :: rest)) (some "blue") (some "m")).take 1 = [d] := by
  have h1 : dedupeByUrl (d :: rest) = d :: dedupeByUrlAux rest [d.url] := by
    simp [dedupeByUrl, dedupeByUrlAux, hu]
  rw [h1]
  unfold filterByAttributes
  rw [if_neg (by simp)]
  have h2 : filterPick (some "blue") (some "m") (d :: dedupeByUrlAux rest [d.url]) =
      d :: filterPick (some "blue") (some "m") (dedupeByUrlAux rest [d.url]) := by
    simp [filterPick, hd]
  rw [h2, if_neg (by simp)]
  simp

/-- The line list produced for the picked document of the C6 scenario:
title, the price line, the options lines, and the trailer. -/
lemma productLines_c6 (d : Doc) (v : Variant)
    (hfind : (piOf d).variants.find? (variantMatches (some "blue") (some "m")) = some v)
    (hp : v.price = "$40") (hw : jsTrim v.compare_at_price = "")
    (ha : v.available = some true) :
    productLines true false false true false false false false (some "blue") (some "m") d =
      (if d.title = "" then "Product" else d.title) :: "Price: $40 (in stock)" ::
        (optLinesOf true (piOf d).variants (jsTrim (jsTake d.text 220)) ++
          ["More details: " ++ d.url]) := by
  have hv : vMatchOf (some "blue") (some "m") (piOf d).variants = some v := by
    simp [vMatchOf, hfind, Option.orElse]
  have hprice : priceLinesOf true (piOf d) (some v) = ["Price: $40 (in stock)"] := by
    have hval : "Price: " ++ v.price ++ " " ++ "(in stock)" = "Price: $40 (in stock)" := by
      rw [hp]; decide
    simp [priceLinesOf, hp, hw, availTruthy, ha, hval]
  simp only [productLines, hv, hprice]
  simp [availLinesOf, matLinesOf, warLinesOf, shipLinesOf, imgLinesOf, wtLinesOf,
    generalLinesOf]

/-- Product path of `generateResponse`: non-personalized product query with a
non-empty document list formats the 3-element prefix. -/
lemma generateResponse_product (m : String) (d : Doc) (l : List Doc) (sess : Session)
    (hper : isPersonalizedQuery m = false) (hprod : isProductQuery m = true) :
    generateResponse m (some (d :: l)) sess = formatProductAnswer m (d :: l.take 2) := by
  simp [generateResponse, hper, hprod, List.take_succ_cons]

/-- C6 counterexample: the retrieved list holds the claimed product document
(`docB`, with url, variant blue/m, price $40, available), but an
earlier-ranked document also survives the attribute filter, is picked
instead, and the reply shows its price — "Price: $40 (in stock)" never
appears and the trailer cites the other url. -/
theorem C6_price_counterexample :
    docB ∈ [docA, docB] ∧ docB.url ≠ "" ∧
    (piOf docB).variants.find? (variantMatches (some "blue") (some "m")) = some vB ∧
    vB.price = "$40" ∧ vB.available = some true ∧
    containsSub
      (respOf (handleChat "What is the price of the blue hoodie in size M?" "s" emptyStore
        (SearchOutcome.okArr [docA, docB]) (SearchOutcome.okArr [docA, docB]) 0 1 mock0).1)
      "Price: $40 (in stock)" = false ∧
    containsSub
      (respOf (handleChat "What is the price of the blue hoodie in size M?" "s" emptyStore
        (SearchOutcome.okArr [docA, docB]) (SearchOutcome.okArr [docA, docB]) 0 1 mock0).1)
      "Price: $99 (in stock)" = true ∧
    endsWithStr
      (respOf (handleChat "What is the price of the blue hoodie in size M?" "s" emptyStore
        (SearchOutcome.okArr [docA, docB]) (SearchOutcome.okArr [docA, docB]) 0 1 mock0).1)
      ("More details: " ++ docB.url) = false := by
  refine ⟨by decide, by decide, by decide, by decide, by decide, by decide, by decide,
    by decide⟩

/-- C6 (amended): when the document carrying the matching variant
{color: blue, size: m, price: $40, available: true} is the FIRST retrieved
document (and carries a url), the completed turn's reply on the scenario
message contains the line "Price: $40 (in stock)" and ends with the
"More details: <url>" trailer. -/
theorem C6_price_scenario (d : Doc) (rest : List Doc) (v : Variant) (sessionId : String)
    (store : Store) (s1 : SearchOutcome) (tU tA : Nat) (mock : TrackingInfo)
    (hsid : sessionId ≠ "") (hs1 : s1 ≠ SearchOutcome.err) (hu : d.url ≠ "")
    (hfind : (piOf d).variants.find? (variantMatches (some "blue") (some "m")) = some v)
    (hp : v.price = "$40") (hw : jsTrim v.compare_at_price = "")
    (ha : v.available = some true) :
    containsSub
      (respOf (handleChat "What is the price of the blue hoodie in size M?" sessionId store s1
        (SearchOutcome.okArr (d :: rest)) tU tA mock).1) "Price: $40 (in stock)" = true ∧
    endsWithStr
      (respOf (handleChat "What is the price of the blue hoodie in size M?" sessionId store s1
        (SearchOutcome.okArr (d :: rest)) tU tA mock).1) ("More details: " ++ d.url) = true := by
  have hres := handleChat_result "What is the price of the blue hoodie in size M?" sessionId
    store s1 (SearchOutcome.okArr (d :: rest)) tU tA mock (by decide) hsid (Or.inr hs1)
    (by simp)
  rw [hres]
  simp only [respOf, normDocs]
  rw [generateResponse_product _ _ _ _ (by decide) (by decide),
    formatProductAnswer_priceMsg,
    picked_head d (rest.take 2) hu (docMatchesAttr_of_find _ _ _ _ hfind)]
  have hjoin : joinWith "\n\n"
      ([d].map (fun r => joinWith "\n"
        (productLines true false false true false false false false
          (some "blue") (some "m") r))) =
      joinWith "\n" (productLines true false false true false false false false
        (some "blue") (some "m") d) := rfl
  rw [hjoin, productLines_c6 d v hfind hp hw ha]
  constructor
  · exact containsSub_joinWith _ _ _ (by simp)
  · have hsplit : (if d.title = "" then "Product" else d.title) :: "Price: $40 (in stock)" ::
        (optLinesOf true (piOf d).variants (jsTrim (jsTake d.text 220)) ++
          ["More details: " ++ d.url]) =
        ((if d.title = "" then "Product" else d.title) :: "Price: $40 (in stock)" ::
          optLinesOf true (piOf d).variants (jsTrim (jsTake d.text 220))) ++
          ["More details: " ++ d.url] := by
      simp
    rw [hsplit]
    exact endsWithStr_joinWith "\n" _ _

/-- C6 witness: the scenario document placed first in the retrieved list. -/
theorem C6_price_scenario_witness :
    containsSub
      (respOf (handleChat "What is the price of the blue hoodie in size M?" "w6" emptyStore
        (SearchOutcome.okArr [docB]) (SearchOutcome.okArr [docB]) 0 1 mock0).1)
      "Price: $40 (in stock)" = true ∧
    endsWithStr
      (respOf (handleChat "What is the price of the blue hoodie in size M?" "w6" emptyStore
        (SearchOutcome.okArr [docB]) (SearchOutcome.okArr [docB]) 0 1 mock0).1)
      ("More details: " ++ docB.url) = true := by
  exact C6_price_scenario docB [] vB "w6" emptyStore (SearchOutcome.okArr [docB]) 0 1 mock0
    (by decide) (by decide) (by decide) (by decide) (by decide) (by decide) (by decide)

end AIChat
